import Mathlib

/-
  Verification development for the nodelike repository.

  The repository contains several near-duplicate iterations of a terminal
  grid-movement game.  The definitions below are shallow embeddings of the
  functions of those iterations:
    - the item model of src/unnamed/part_003 (item.ts, lines 300-392) and
      src/unnamed/part_000 (item.js);
    - the catalog, movement, pickup and rendering logic of src/src/game.ts,
      with the variants of src/unnamed/part_002 (clamped viewport) and
      src/unnamed/part_004 (unfiltered item initialisation) embedded
      separately where they differ.
  JavaScript numbers holding integer coordinates and sizes are modelled as
  Int; JSON tables are modelled as association lists; a lookup that would
  throw a TypeError in JavaScript is modelled as an Option-valued result
  being none.
-/

namespace Nodelike

/-- Common attributes of an item, from the ItemAttributes interface of
item.ts (src/unnamed/part_003 lines 301-310): name, type, description,
weight, average_market_price, rarity and the placement coordinates. -/
structure ItemAttributes where
  name : String
  type : String
  description : String
  weight : Int
  average_market_price : Int
  rarity : String
  x : Int
  y : Int
deriving DecidableEq

/-- Variant payload of an item: the base class has none, MeleeWeapon adds
damageRange and damageType, Armor adds armorClass, Potion adds nothing,
Grenade adds explosivePower (item.ts lines 341-391). -/
inductive ItemVariant where
  | base
  | meleeWeapon (damageRange : String) (damageType : String)
  | armor (armorClass : Int)
  | potion
  | grenade (explosivePower : Int)
deriving DecidableEq

/-- Identity string computed by the Item constructor (item.ts line 332):
the name and the coordinates joined by underscores. -/
def itemId (a : ItemAttributes) : String :=
  a.name ++ "_" ++ toString a.x ++ "_" ++ toString a.y

/-- An item instance: its attribute record, its variant payload, and the
id set by the constructor (item.ts lines 326-333). -/
structure Item where
  attributes : ItemAttributes
  variant : ItemVariant
  id : String
deriving DecidableEq

/-- Construction of an item: every variant constructor calls the base
constructor, which stores the attributes and derives the id. -/
def mkItem (a : ItemAttributes) (v : ItemVariant) : Item :=
  { attributes := a, variant := v, id := itemId a }

/-- Base getInfo of the Item class (item.ts lines 335-338). -/
def baseInfo (it : Item) : String :=
  it.attributes.name ++ " (Type: " ++ it.attributes.type ++ ") - " ++
    it.attributes.description

/-- The getInfo method: each subclass appends its clause after the base
output (item.ts lines 351-353, 364-366, 374-376, 387-389). -/
def Item.getInfo (it : Item) : String :=
  match it.variant with
  | .base => baseInfo it
  | .meleeWeapon r t => baseInfo it ++ " | Damage: " ++ r ++ " (" ++ t ++ ")"
  | .armor n => baseInfo it ++ " | Armor Class: " ++ toString n
  | .potion => baseInfo it ++ " | Effect: Restores health"
  | .grenade n => baseInfo it ++ " | Explosive Power: " ++ toString n

/-- A template entry of config/items.json as consumed by
createItemInstance (src/src/game.ts lines 54-84).  The JSON object carries
the common attributes plus, depending on its type tag, the variant fields;
the variant fields are modelled as always-present record fields, read only
when the type tag selects them. -/
structure ItemDetail where
  name : String
  type : String
  description : String
  weight : Int
  average_market_price : Int
  rarity : String
  damage_range : String
  damage_type : String
  armor_class : Int
  explosive_power : Int
deriving DecidableEq

/-- First-match lookup in an association list, modelling property access
on a JSON-derived JavaScript object (keys are unique in JSON, so first
match is the only match). -/
def lookupTable {α : Type} (k : String) : List (String × α) → Option α
  | [] => none
  | (k2, v) :: rest => if k = k2 then some v else lookupTable k rest

/-- Dispatch of createItemInstance (src/src/game.ts lines 62-84): a missing
template key is logged and yields null, modelled as none; otherwise the
template attributes are combined with the placement coordinates and the
constructor selected by the type tag is applied, the default branch
building a plain Item. -/
def createItemInstance (cfg : List (String × ItemDetail)) (itemKey : String)
    (x y : Int) : Option Item :=
  match lookupTable itemKey cfg with
  | none => none
  | some d =>
    let a : ItemAttributes :=
      { name := d.name, type := d.type, description := d.description,
        weight := d.weight, average_market_price := d.average_market_price,
        rarity := d.rarity, x := x, y := y }
    some (if d.type = "melee_weapon" then
            mkItem a (.meleeWeapon d.damage_range d.damage_type)
          else if d.type = "armor" then
            mkItem a (.armor d.armor_class)
          else if d.type = "potion" then
            mkItem a .potion
          else if d.type = "grenade" then
            mkItem a (.grenade d.explosive_power)
          else
            mkItem a .base)

/-- A placement entry of the map configuration: a template key and the
coordinates at which the item is placed. -/
structure Placement where
  key : String
  x : Int
  y : Int
deriving DecidableEq

/-- World-item initialisation of src/src/game.ts lines 87-89 (identical in
part_002 lines 87-89 and part_003 lines 103-105): map createItemInstance
over the placements, then filter the null results out. -/
def initItemsGame (cfg : List (String × ItemDetail)) (ps : List Placement) :
    List Item :=
  ps.filterMap fun p => createItemInstance cfg p.key p.x p.y

/-- World-item initialisation of src/unnamed/part_004 line 48: map
createItemInstance over the placements with no filtering, so null results
stay in the list. -/
def initItemsPart004 (cfg : List (String × ItemDetail)) (ps : List Placement) :
    List (Option Item) :=
  ps.map fun p => createItemInstance cfg p.key p.x p.y

/-- An entry of config/terrainTypes.json as read by src/src/game.ts lines
16-25: a foreground colour, a description and a passability flag. -/
structure TerrainConfigEntry where
  fg : String
  description : String
  isPassable : Bool
deriving DecidableEq

/-- A processed terrain type (the TerrainType interface, game.ts lines
10-14): rendered visual, rendered description, passability flag. -/
structure TerrainType where
  visual : String
  description : String
  isPassable : Bool
deriving DecidableEq

/-- The terrainTypes table built at load from the terrain configuration
(game.ts lines 16-25): the visual wraps the label in blessed colour tags
and the description is coloured the same way. -/
def terrainTypesOf (cfg : List (String × TerrainConfigEntry)) :
    List (String × TerrainType) :=
  cfg.map fun kv =>
    (kv.1,
     { visual := "\x7b" ++ kv.2.fg ++ "-fg\x7d" ++ kv.1 ++ "\x7b/" ++ kv.2.fg ++ "-fg\x7d",
       description := "\x7b" ++ kv.2.fg ++ "-fg\x7d" ++ kv.2.description ++ "\x7b/" ++ kv.2.fg ++ "-fg\x7d",
       isPassable := kv.2.isPassable })

/-- The in-memory game state: map dimensions and terrain grid from
config/map.json (game.ts lines 30-39), the processed terrain-type table,
the player record (game.ts lines 48-52) and the world-item list.  The
grid is modelled as a total function on coordinates (row index first, as
in the source expression terrain at y then x); every statement proved
below reads it only at in-bounds coordinates.  The player and item glyphs
come from config/general.json and are carried as state fields. -/
structure GameState where
  mapWidth : Int
  mapHeight : Int
  terrain : Int → Int → String
  table : List (String × TerrainType)
  playerX : Int
  playerY : Int
  worldItems : List Item
  inventory : List Item
  playerGlyph : String
  itemGlyph : String

/-- Load path of game.ts lines 16-39: the mapConfig object and the
terrainTypes table are built directly from the parsed JSON with no
validation of the grid labels, so loading always succeeds; the result is
wrapped in Option only so that a fatal load-time rejection would be
expressible as none. -/
def loadGame (grid : Int → Int → String) (mw mh : Int)
    (cfg : List (String × TerrainConfigEntry)) (px py : Int)
    (ws : List Item) (pg ig : String) : Option GameState :=
  some
    { mapWidth := mw, mapHeight := mh, terrain := grid,
      table := terrainTypesOf cfg, playerX := px, playerY := py,
      worldItems := ws, inventory := [], playerGlyph := pg, itemGlyph := ig }

/-- Passability query of game.ts lines 300-303: look the cell label up in
the terrainTypes table and read isPassable.  A label with no table entry
makes the source throw a TypeError, modelled as none. -/
def isPassable (st : GameState) (x y : Int) : Option Bool :=
  (lookupTable (st.terrain y x) st.table).map fun tt => tt.isPassable

/-- The viewport width constant of src/src/game.ts line 27 (part_002 reads
the same quantity from config/general.json). -/
def viewportWidth : Int := 20

/-- The viewport height constant of src/src/game.ts line 28. -/
def viewportHeight : Int := 12

/-- Integer ascending range, modelling the JavaScript loop that runs an
index from a (inclusive) to b (exclusive); empty when b is at most a. -/
def intRange (a b : Int) : List Int :=
  (List.range (b - a).toNat).map fun (i : Nat) => a + (i : Int)

/-- The four corner coordinates computed at the top of drawMap. -/
structure Viewport where
  startX : Int
  startY : Int
  endX : Int
  endY : Int
deriving DecidableEq

/-- Viewport corners of src/src/game.ts drawMap lines 151-154 (the same
arithmetic appears in part_003 lines 113-116 and part_004 lines 77-80):
the start is clamped below by 0 only, and the end is capped by the map
dimension. -/
def viewportGame (st : GameState) (w h : Int) : Viewport :=
  let startX := max 0 (st.playerX - w / 2)
  let startY := max 0 (st.playerY - h / 2)
  { startX := startX, startY := startY,
    endX := min st.mapWidth (startX + w),
    endY := min st.mapHeight (startY + h) }

/-- Viewport corners of src/unnamed/part_002 drawMap lines 180-185: the
start is additionally capped above by mapWidth - w (resp. mapHeight - h)
before the end is computed. -/
def viewportP2 (st : GameState) (w h : Int) : Viewport :=
  let halfX := w / 2
  let halfY := h / 2
  let startX := min (max 0 (st.playerX - halfX)) (st.mapWidth - w)
  let startY := min (max 0 (st.playerY - halfY)) (st.mapHeight - h)
  { startX := startX, startY := startY,
    endX := min st.mapWidth (startX + w),
    endY := min st.mapHeight (startY + h) }

/-- Clamp as written in the specification: the value forced into the
closed interval from lo to hi. -/
def clampSpec (v lo hi : Int) : Int :=
  min (max v lo) hi

/-- Content pushed for one viewport cell by the drawMap loop body
(game.ts lines 158-171): the player glyph wins, then the item glyph when
some world item occupies the cell, then the terrain visual, pushed only
when the label is truthy and its visual is truthy; an empty result models
a cell that pushes nothing.  A truthy label with no table entry makes the
source throw a TypeError reading visual on undefined; that branch is
modelled as pushing nothing and is unreachable under the label-coverage
hypotheses used in the theorems below. -/
def renderCell (st : GameState) (x y : Int) : List String :=
  if x = st.playerX ∧ y = st.playerY then
    [st.playerGlyph]
  else if st.worldItems.any (fun it =>
      decide (it.attributes.x = x) && decide (it.attributes.y = y)) then
    [st.itemGlyph]
  else if st.terrain y x = "" then
    []
  else
    match lookupTable (st.terrain y x) st.table with
    | some tt => if tt.visual = "" then [] else [tt.visual]
    | none => []

/-- Body of drawMap given the precomputed corners: one row per y from
startY to endY, each row collecting the cell contents for x from startX
to endX (game.ts lines 156-174; the source finally joins rows into a
string, a presentation step not modelled). -/
def drawMapWith (st : GameState) (v : Viewport) : List (List String) :=
  (intRange v.startY v.endY).map fun y =>
    (intRange v.startX v.endX).flatMap fun x => renderCell st x y

/-- The drawMap of src/src/game.ts lines 147-176, with the unclamped
corner computation. -/
def drawMapGame (st : GameState) (w h : Int) : List (List String) :=
  drawMapWith st (viewportGame st w h)

/-- The drawMap of src/unnamed/part_002 lines 176-226, with the clamped
corner computation. -/
def drawMapP2 (st : GameState) (w h : Int) : List (List String) :=
  drawMapWith st (viewportP2 st w h)

/-- Candidate position computed by movePlayer (game.ts lines 306-318):
one axis step in the keyed direction, taken only when the matching bounds
guard holds, otherwise the current position. -/
def candidate (st : GameState) (direction : String) : Int × Int :=
  if direction = "w" ∧ 0 < st.playerY then
    (st.playerX, st.playerY - 1)
  else if direction = "a" ∧ 0 < st.playerX then
    (st.playerX - 1, st.playerY)
  else if direction = "s" ∧ st.playerY < st.mapHeight - 1 then
    (st.playerX, st.playerY + 1)
  else if direction = "d" ∧ st.playerX < st.mapWidth - 1 then
    (st.playerX + 1, st.playerY)
  else
    (st.playerX, st.playerY)

/-- The movePlayer of game.ts lines 306-332: compute the candidate, test
its passability, and either commit the new position (no message) or keep
the position and display the impassable message; the Bool records whether
the impassable message was raised.  A passability lookup on a label with
no table entry throws in the source, modelled as none. -/
def movePlayer (st : GameState) (direction : String) :
    Option (GameState × Bool) :=
  let c := candidate st direction
  match isPassable st c.1 c.2 with
  | none => none
  | some true => some ({ st with playerX := c.1, playerY := c.2 }, false)
  | some false => some (st, true)

/-- Combined findIndex-and-splice of pickUpItem (game.ts lines 219-223):
locate the first element satisfying the predicate and return it together
with the list with that one occurrence removed; none when no element
matches (findIndex returning -1). -/
def spliceFirst (p : Item → Bool) : List Item → Option (Item × List Item)
  | [] => none
  | it :: rest =>
    if p it then some (it, rest)
    else (spliceFirst p rest).map fun fr => (fr.1, it :: fr.2)

/-- The pickUpItem of game.ts lines 218-234: find the first world item at
the player's cell; when found, remove it from the world list and push it
onto the inventory (the Bool records that a pickup happened), otherwise
leave both collections unchanged. -/
def pickUpItem (st : GameState) : GameState × Bool :=
  match spliceFirst (fun it =>
      decide (it.attributes.x = st.playerX) &&
      decide (it.attributes.y = st.playerY)) st.worldItems with
  | some (item, rest) =>
    ({ st with worldItems := rest, inventory := st.inventory ++ [item] }, true)
  | none => (st, false)

/-- A grass entry for a terrain configuration, used to build concrete
states for witnesses and counterexamples. -/
def grassEntry : TerrainConfigEntry :=
  { fg := "green", description := "grass", isPassable := true }

/-- A terrain-type table holding the single label g, processed the way
game.ts processes its configuration. -/
def grassTable : List (String × TerrainType) :=
  terrainTypesOf [("g", grassEntry)]

/-- A concrete game state over an all-grass map of the given dimensions,
with the given player position and world items. -/
def mkGrassState (mw mh px py : Int) (ws : List Item) : GameState :=
  { mapWidth := mw, mapHeight := mh, terrain := fun _ _ => "g",
    table := grassTable, playerX := px, playerY := py, worldItems := ws,
    inventory := [], playerGlyph := "@", itemGlyph := "I" }

/-- Attribute record of a concrete potion used in the getInfo statements. -/
def potionAttrs : ItemAttributes :=
  { name := "Healing Potion", type := "potion", description := "heals",
    weight := 1, average_market_price := 5, rarity := "common", x := 2, y := 3 }

/-- A concrete potion instance. -/
def potionEx : Item := mkItem potionAttrs ItemVariant.potion

/-- Attribute record of a concrete sword used in the pickup statements. -/
def swordAttrs : ItemAttributes :=
  { name := "Sword", type := "default", description := "sharp", weight := 3,
    average_market_price := 10, rarity := "rare", x := 1, y := 1 }

/-- A concrete base item at cell one-one. -/
def swordEx : Item := mkItem swordAttrs ItemVariant.base

/-- Length of an integer range. -/
theorem length_intRange (a b : Int) : (intRange a b).length = (b - a).toNat := by
  unfold intRange
  rw [List.length_map, List.length_range]

/-- Members of an integer range lie between its bounds. -/
theorem mem_intRange {a b y : Int} (h : y ∈ intRange a b) : a ≤ y ∧ y < b := by
  unfold intRange at h
  rw [List.mem_map] at h
  obtain ⟨i, hi, rfl⟩ := h
  rw [List.mem_range] at hi
  omega

/-- A flatMap whose pieces are all singletons has the length of the
index list. -/
theorem flatMap_length_of_singletons {α β : Type} (f : α → List β)
    (l : List α) (h : ∀ x ∈ l, (f x).length = 1) :
    (l.flatMap f).length = l.length := by
  induction l with
  | nil => simp
  | cons x xs ih =>
    have hx := h x (by simp)
    have hxs := ih fun z hz => h z (by simp [hz])
    simp [List.flatMap_cons, hx, hxs]
    omega

/-- Successful spliceFirst decomposes the list around the removed
element: the input is a prefix, the element, and a suffix, and the result
is the prefix followed by the suffix. -/
theorem spliceFirst_split {p : Item → Bool} :
    ∀ {l : List Item} {a : Item} {r : List Item},
      spliceFirst p l = some (a, r) →
      ∃ l1 l2, l = l1 ++ a :: l2 ∧ r = l1 ++ l2 := by
  intro l
  induction l with
  | nil => intro a r h; simp [spliceFirst] at h
  | cons it rest ih =>
    intro a r h
    simp only [spliceFirst] at h
    by_cases hp : p it
    · rw [if_pos hp] at h
      simp only [Option.some.injEq, Prod.mk.injEq] at h
      obtain ⟨rfl, rfl⟩ := h
      exact ⟨[], rest, by simp, by simp⟩
    · rw [if_neg hp] at h
      cases hr : spliceFirst p rest with
      | none => rw [hr] at h; simp at h
      | some fr =>
        rw [hr] at h
        simp only [Option.map, Option.some.injEq, Prod.mk.injEq] at h
        obtain ⟨rfl, rfl⟩ := h
        obtain ⟨l1, l2, hl, hr2⟩ := ih (show spliceFirst p rest = some (fr.1, fr.2) by rw [hr])
        exact ⟨it :: l1, l2, by simp [hl], by simp [hr2]⟩

/-- Removing the found element by spliceFirst decreases the occurrence
count of exactly that element by one. -/
theorem spliceFirst_count {p : Item → Bool} {l : List Item} {a : Item}
    {r : List Item} (h : spliceFirst p l = some (a, r)) :
    l.count a = r.count a + 1 := by
  obtain ⟨l1, l2, rfl, rfl⟩ := spliceFirst_split h
  simp [List.count_append, List.count_cons_self]
  omega

/-- Lookup in the processed terrain-type table is the processed lookup in
the raw configuration: the table built by terrainTypesOf has an entry for
a label exactly when the configuration does. -/
theorem lookupTable_terrainTypesOf (cfg : List (String × TerrainConfigEntry))
    (k : String) :
    lookupTable k (terrainTypesOf cfg) = none ↔ lookupTable k cfg = none := by
  induction cfg with
  | nil => simp [terrainTypesOf, lookupTable]
  | cons kv rest ih =>
    simp only [terrainTypesOf, List.map_cons] at *
    by_cases hk : k = kv.1
    · simp [lookupTable, hk]
    · simpa [lookupTable, hk] using ih

/-- A viewport cell whose terrain label is truthy and covered by the
table with a truthy visual always pushes exactly one entry, whichever of
the player, item or terrain branches fires. -/
theorem renderCell_length_one {st : GameState} {x y : Int}
    (hlabel : st.terrain y x ≠ "")
    (hcov : ∃ tt, lookupTable (st.terrain y x) st.table = some tt ∧
      tt.visual ≠ "") :
    (renderCell st x y).length = 1 := by
  obtain ⟨tt, hl, hv⟩ := hcov
  unfold renderCell
  split_ifs <;> simp_all [hl]

/-- The candidate cell of movePlayer stays inside the map whenever the
current position is inside the map: each axis step is guarded by the
matching bound. -/
theorem candidate_bounds {st : GameState} (d : String)
    (hx1 : 0 ≤ st.playerX) (hx2 : st.playerX < st.mapWidth)
    (hy1 : 0 ≤ st.playerY) (hy2 : st.playerY < st.mapHeight) :
    0 ≤ (candidate st d).1 ∧ (candidate st d).1 < st.mapWidth ∧
    0 ≤ (candidate st d).2 ∧ (candidate st d).2 < st.mapHeight := by
  unfold candidate
  split_ifs with h1 h2 h3 h4 <;> simp <;> omega

/-- A direction that is none of the four movement keys leaves the
candidate cell equal to the current position. -/
theorem candidate_other {st : GameState} {d : String}
    (h1 : d ≠ "w") (h2 : d ≠ "a") (h3 : d ≠ "s") (h4 : d ≠ "d") :
    candidate st d = (st.playerX, st.playerY) := by
  unfold candidate
  split_ifs with g1 g2 g3 g4 <;> simp_all

/-- At the origin, the up and left bounds guards both fail, so the
candidate cell is the origin itself. -/
theorem candidate_origin {st : GameState} {d : String}
    (hx : st.playerX = 0) (hy : st.playerY = 0) (hd : d = "w" ∨ d = "a") :
    candidate st d = (0, 0) := by
  unfold candidate
  rcases hd with rfl | rfl <;> split_ifs with g1 g2 g3 g4 <;> simp_all

/-- Writing a player position back into a state that already holds it
changes nothing. -/
theorem state_write_same {st : GameState} (hx : st.playerX = 0)
    (hy : st.playerY = 0) :
    ({ st with playerX := 0, playerY := 0 } : GameState) = st := by
  cases st
  simp_all

/-- A concrete item template with the default type tag. -/
def swordDetail : ItemDetail :=
  { name := "Sword", type := "default", description := "sharp", weight := 3,
    average_market_price := 10, rarity := "rare", damage_range := "",
    damage_type := "", armor_class := 0, explosive_power := 0 }

/-- C8: for every template key present in the catalog and any coordinates,
createItemInstance returns an item whose identity is the template name and
the two coordinates joined by underscores, so the identity is a
deterministic function of the name and coordinates and encodes exactly the
name, x and y supplied. -/
theorem createItemInstance_id_encodes :
    ∀ (cfg : List (String × ItemDetail)) (key : String) (x y : Int)
      (d : ItemDetail), lookupTable key cfg = some d →
      (createItemInstance cfg key x y).map Item.id =
        some (d.name ++ "_" ++ toString x ++ "_" ++ toString y) ∧
      (createItemInstance cfg key x y).map (fun it => it.attributes.name) =
        some d.name ∧
      (createItemInstance cfg key x y).map (fun it => it.attributes.x) =
        some x ∧
      (createItemInstance cfg key x y).map (fun it => it.attributes.y) =
        some y := by
  intro cfg key x y d hd
  unfold createItemInstance
  rw [hd]
  dsimp only
  split_ifs <;> simp [mkItem, itemId]

/-- C8 witness: a concrete catalog with the sword template at key sword,
instantiated at coordinates four and seven. -/
theorem createItemInstance_id_encodes_witness :
    (createItemInstance [("sword", swordDetail)] "sword" 4 7).map Item.id =
      some (swordDetail.name ++ "_" ++ toString (4 : Int) ++ "_" ++
        toString (7 : Int)) ∧
    (createItemInstance [("sword", swordDetail)] "sword" 4 7).map
        (fun it => it.attributes.name) = some swordDetail.name ∧
    (createItemInstance [("sword", swordDetail)] "sword" 4 7).map
        (fun it => it.attributes.x) = some 4 ∧
    (createItemInstance [("sword", swordDetail)] "sword" 4 7).map
        (fun it => it.attributes.y) = some 7 :=
  createItemInstance_id_encodes [("sword", swordDetail)] "sword" 4 7
    swordDetail (by decide)

/-- C9 counterexample: the potion clause written by getInfo capitalises
Restores, so the output differs from the base description followed by the
clause Effect colon restores health claimed by the specification. -/
theorem getInfo_potion_clause_differs :
    Item.getInfo potionEx ≠ baseInfo potionEx ++ " | Effect: restores health" := by
  decide

/-- C9 amended: getInfo output equals the base description followed by the
variant clause, with Damage for melee weapons, Armor Class for armor,
Effect colon Restores health (capital R) for potions, Explosive Power for
grenades, and no clause for the base item. -/
theorem getInfo_appends_variant_clause :
    ∀ (it : Item),
      (it.variant = ItemVariant.base → it.getInfo = baseInfo it) ∧
      (∀ r t, it.variant = ItemVariant.meleeWeapon r t →
        it.getInfo = baseInfo it ++ " | Damage: " ++ r ++ " (" ++ t ++ ")") ∧
      (∀ n, it.variant = ItemVariant.armor n →
        it.getInfo = baseInfo it ++ " | Armor Class: " ++ toString n) ∧
      (it.variant = ItemVariant.potion →
        it.getInfo = baseInfo it ++ " | Effect: Restores health") ∧
      (∀ n, it.variant = ItemVariant.grenade n →
        it.getInfo = baseInfo it ++ " | Explosive Power: " ++ toString n) := by
  intro it
  obtain ⟨a, v, i⟩ := it
  cases v <;> simp [Item.getInfo]

/-- C9 witness: the concrete potion instance produces the base description
followed by the capitalised potion clause. -/
theorem getInfo_appends_variant_clause_witness :
    Item.getInfo potionEx = baseInfo potionEx ++ " | Effect: Restores health" :=
  (getInfo_appends_variant_clause potionEx).2.2.2.1 rfl

/-- C10: for every direction other than the four movement keys, the
candidate equals the current position, so a successful movePlayer leaves
the player position exactly unchanged. -/
theorem movePlayer_other_direction_fixes_position :
    ∀ (st : GameState) (d : String) (st' : GameState) (sig : Bool),
      d ≠ "w" → d ≠ "a" → d ≠ "s" → d ≠ "d" →
      movePlayer st d = some (st', sig) →
      st'.playerX = st.playerX ∧ st'.playerY = st.playerY := by
  intro st d st' sig h1 h2 h3 h4 hmv
  have hc := @candidate_other st d h1 h2 h3 h4
  simp only [movePlayer, hc] at hmv
  cases hp : isPassable st st.playerX st.playerY with
  | none => rw [hp] at hmv; cases hmv
  | some b =>
    rw [hp] at hmv
    cases b
    · simp only [Option.some.injEq, Prod.mk.injEq] at hmv
      obtain ⟨rfl, rfl⟩ := hmv
      exact ⟨rfl, rfl⟩
    · simp only [Option.some.injEq, Prod.mk.injEq] at hmv
      obtain ⟨hst, _⟩ := hmv
      rw [← hst]
      simp

/-- C10 witness: a concrete state on an all-grass map, where the x key
moves nothing. -/
theorem movePlayer_other_direction_fixes_position_witness :
    (mkGrassState 3 3 1 1 []).playerX = (mkGrassState 3 3 1 1 []).playerX ∧
    (mkGrassState 3 3 1 1 []).playerY = (mkGrassState 3 3 1 1 []).playerY :=
  movePlayer_other_direction_fixes_position (mkGrassState 3 3 1 1 []) "x"
    (mkGrassState 3 3 1 1 []) false (by decide) (by decide) (by decide)
    (by decide) rfl

/-- C3 counterexample: a player at the origin of an all-grass map moving
up keeps the position, but the impassable signal is not raised (the
boundary guard resets the candidate to the current, passable cell, so the
accepting branch runs silently), contradicting the claim that the signal
is raised in this scenario. -/
theorem movePlayer_origin_up_without_signal :
    movePlayer (mkGrassState 3 3 0 0 []) "w" =
      some (mkGrassState 3 3 0 0 [], false) := rfl

/-- C3 amended: whenever movePlayer rejects the candidate because its
terrain is impassable, the whole state is unchanged and the impassable
signal is raised; when the player is at the origin and moves up or left,
the bounds guard makes the candidate the current cell, so if that cell is
passable the position is unchanged, no signal is raised, and the call
returns normally rather than crashing. -/
theorem movePlayer_reject_and_boundary :
    ∀ (st : GameState) (d : String),
      (∀ st', movePlayer st d = some (st', true) → st' = st) ∧
      (st.playerX = 0 → st.playerY = 0 → (d = "w" ∨ d = "a") →
        isPassable st 0 0 = some true →
        movePlayer st d = some (st, false)) := by
  intro st d
  constructor
  · intro st' hmv
    simp only [movePlayer] at hmv
    cases hp : isPassable st (candidate st d).1 (candidate st d).2 with
    | none => rw [hp] at hmv; cases hmv
    | some b =>
      rw [hp] at hmv
      cases b
      · simp only [Option.some.injEq, Prod.mk.injEq] at hmv
        exact hmv.1.symm
      · simp only [Option.some.injEq, Prod.mk.injEq] at hmv
        cases hmv.2
  · intro hx hy hd hpass
    have hc := @candidate_origin st d hx hy hd
    simp only [movePlayer, hc]
    rw [hpass]
    rw [state_write_same hx hy]

/-- C3 witness: the origin state on an all-grass map moving left, with
every hypothesis discharged concretely. -/
theorem movePlayer_reject_and_boundary_witness :
    movePlayer (mkGrassState 3 3 0 0 []) "a" =
      some (mkGrassState 3 3 0 0 [], false) :=
  (movePlayer_reject_and_boundary (mkGrassState 3 3 0 0 []) "a").2 rfl rfl
    (Or.inr rfl) (by decide)

/-- C4: starting from a state whose player position is inside the map,
any direction given to movePlayer that returns a state yields a player
position still inside the (unchanged) map bounds. -/
theorem movePlayer_preserves_bounds :
    ∀ (st : GameState) (d : String) (st' : GameState) (sig : Bool),
      0 ≤ st.playerX → st.playerX < st.mapWidth →
      0 ≤ st.playerY → st.playerY < st.mapHeight →
      movePlayer st d = some (st', sig) →
      0 ≤ st'.playerX ∧ st'.playerX < st'.mapWidth ∧
      0 ≤ st'.playerY ∧ st'.playerY < st'.mapHeight := by
  intro st d st' sig hx1 hx2 hy1 hy2 hmv
  have hc := @candidate_bounds st d hx1 hx2 hy1 hy2
  simp only [movePlayer] at hmv
  cases hp : isPassable st (candidate st d).1 (candidate st d).2 with
  | none => rw [hp] at hmv; cases hmv
  | some b =>
    rw [hp] at hmv
    cases b
    · simp only [Option.some.injEq, Prod.mk.injEq] at hmv
      obtain ⟨rfl, rfl⟩ := hmv
      exact ⟨hx1, hx2, hy1, hy2⟩
    · simp only [Option.some.injEq, Prod.mk.injEq] at hmv
      obtain ⟨hst, _⟩ := hmv
      rw [← hst]
      simpa using hc

/-- C4 witness: a concrete in-bounds move on an all-grass map. -/
theorem movePlayer_preserves_bounds_witness :
    0 ≤ (mkGrassState 3 3 1 0 []).playerX ∧
    (mkGrassState 3 3 1 0 []).playerX < (mkGrassState 3 3 1 0 []).mapWidth ∧
    0 ≤ (mkGrassState 3 3 1 0 []).playerY ∧
    (mkGrassState 3 3 1 0 []).playerY < (mkGrassState 3 3 1 0 []).mapHeight :=
  movePlayer_preserves_bounds (mkGrassState 3 3 1 1 []) "w"
    (mkGrassState 3 3 1 0 []) false (by decide) (by decide) (by decide)
    (by decide) rfl

/-- C5: when the first world item found at the player's cell is removed
by pickUpItem, and the state satisfies the single-location invariants of
the data model (the item occurs once in the world list and not yet in the
inventory), then afterwards the pickup is reported, the inventory is the
old inventory with the item appended (earlier entries keep their
positions), the item occurs exactly once in the inventory, and it is
absent from the world list. -/
theorem pickUpItem_transfers :
    ∀ (st : GameState) (item : Item) (rest : List Item),
      spliceFirst (fun it => decide (it.attributes.x = st.playerX) &&
        decide (it.attributes.y = st.playerY)) st.worldItems =
        some (item, rest) →
      st.inventory.count item = 0 →
      st.worldItems.count item = 1 →
      (pickUpItem st).2 = true ∧
      (pickUpItem st).1.inventory = st.inventory ++ [item] ∧
      (pickUpItem st).1.inventory.count item = 1 ∧
      (pickUpItem st).1.worldItems.count item = 0 := by
  intro st item rest hsp hinv hw
  have hcnt := spliceFirst_count hsp
  unfold pickUpItem
  rw [hsp]
  refine ⟨rfl, rfl, ?_, ?_⟩
  · simp [List.count_append, hinv]
  · simp only []
    omega

/-- C5 witness: an all-grass state whose world holds exactly the sword at
the player's cell and whose inventory is empty. -/
theorem pickUpItem_transfers_witness :
    (pickUpItem (mkGrassState 3 3 1 1 [swordEx])).2 = true ∧
    (pickUpItem (mkGrassState 3 3 1 1 [swordEx])).1.inventory =
      (mkGrassState 3 3 1 1 [swordEx]).inventory ++ [swordEx] ∧
    (pickUpItem (mkGrassState 3 3 1 1 [swordEx])).1.inventory.count swordEx = 1 ∧
    (pickUpItem (mkGrassState 3 3 1 1 [swordEx])).1.worldItems.count swordEx = 0 :=
  pickUpItem_transfers (mkGrassState 3 3 1 1 [swordEx]) swordEx []
    (by decide) (by decide) (by decide)

/-- The filtering initialisation of game.ts equals the unfiltered
initialisation of part_004 with the null entries dropped. -/
theorem initItemsGame_eq_reduceOption (cfg : List (String × ItemDetail))
    (ps : List Placement) :
    initItemsGame cfg ps = (initItemsPart004 cfg ps).reduceOption := by
  induction ps with
  | nil => rfl
  | cons p rest ih =>
    simp only [initItemsGame, initItemsPart004, List.filterMap_cons,
      List.map_cons] at *
    cases h : createItemInstance cfg p.key p.x p.y with
    | none => simp [h, ih]
    | some it => simp [h, ih]

/-- C6 counterexample: part_004 initialises its world-item list with a
plain map and no filtering, so a placement with a key absent from an
empty catalog leaves a null entry in the list, contradicting the claim
that the caller filters empty results out. -/
theorem initItemsPart004_keeps_null :
    none ∈ initItemsPart004 [] [{ key := "sword", x := 1, y := 2 }] := by
  decide

/-- C6 amended: for a key absent from the template table,
createItemInstance yields none and nothing else (it is a pure function),
the game.ts caller drops such a placement from the world list it builds,
and in general the game.ts world list is the part_004 list with the null
entries filtered away; the part_004 iteration itself keeps the nulls. -/
theorem createItemInstance_unknown_key :
    ∀ (cfg : List (String × ItemDetail)) (key : String) (x y : Int)
      (ps : List Placement),
      lookupTable key cfg = none →
      createItemInstance cfg key x y = none ∧
      initItemsGame cfg ({ key := key, x := x, y := y } :: ps) =
        initItemsGame cfg ps ∧
      initItemsGame cfg ps = (initItemsPart004 cfg ps).reduceOption := by
  intro cfg key x y ps hmiss
  have hnone : createItemInstance cfg key x y = none := by
    unfold createItemInstance
    rw [hmiss]
  refine ⟨hnone, ?_, initItemsGame_eq_reduceOption cfg ps⟩
  simp only [initItemsGame, List.filterMap_cons]
  rw [hnone]

/-- C6 witness: the unknown key sword against an empty catalog, with one
further placement surviving untouched. -/
theorem createItemInstance_unknown_key_witness :
    createItemInstance [] "sword" 1 2 = none ∧
    initItemsGame [] ({ key := "sword", x := 1, y := 2 } :: []) =
      initItemsGame [] [] ∧
    initItemsGame [] [] = (initItemsPart004 [] []).reduceOption :=
  createItemInstance_unknown_key [] "sword" 1 2 [] rfl

/-- A grid whose origin cell carries a label with no table entry. -/
def mixedGrid : Int → Int → String :=
  fun y x => if y = 0 ∧ x = 0 then "w" else "g"

/-- The state produced by loading mixedGrid against a table that only
knows the grass label. -/
def exC7 : GameState :=
  { mapWidth := 2, mapHeight := 2, terrain := mixedGrid,
    table := terrainTypesOf [("g", grassEntry)], playerX := 1, playerY := 1,
    worldItems := [], inventory := [], playerGlyph := "@", itemGlyph := "I" }

/-- C7 counterexample: a grid containing the unknown label w is accepted
at load time (loading succeeds and produces a state), and the failure
surfaces only later, when the passability lookup on that cell comes back
empty (a TypeError in the source); this contradicts the claim of a fatal
load-time rejection. -/
theorem load_accepts_unknown_label :
    loadGame mixedGrid 2 2 [("g", grassEntry)] 1 1 [] "@" "I" = some exC7 ∧
    isPassable exC7 0 0 = none := by
  constructor
  · rfl
  · rfl

/-- C7 amended: loading performs no validation of grid labels and always
succeeds, for every grid and table; a label with no table entry instead
fails at first use, the passability lookup on such a cell yielding none
(the source throws a TypeError there). -/
theorem load_no_validation_lookup_fails :
    ∀ (grid : Int → Int → String) (mw mh : Int)
      (cfg : List (String × TerrainConfigEntry)) (px py : Int)
      (ws : List Item) (pg ig : String),
      (loadGame grid mw mh cfg px py ws pg ig).isSome = true ∧
      ∀ st, loadGame grid mw mh cfg px py ws pg ig = some st →
        ∀ x y, lookupTable (grid y x) cfg = none →
          isPassable st x y = none := by
  intro grid mw mh cfg px py ws pg ig
  refine ⟨rfl, ?_⟩
  intro st hst x y hmiss
  simp only [loadGame, Option.some.injEq] at hst
  subst hst
  unfold isPassable
  simp only []
  rw [(lookupTable_terrainTypesOf cfg (grid y x)).mpr hmiss]
  rfl

/-- A one-cell state whose only label has no table entry at all. -/
def exC7b : GameState :=
  { mapWidth := 1, mapHeight := 1, terrain := fun _ _ => "w",
    table := terrainTypesOf [], playerX := 0, playerY := 0, worldItems := [],
    inventory := [], playerGlyph := "@", itemGlyph := "I" }

/-- C7 witness: loading the one-cell unknown-label grid succeeds and its
passability lookup at the origin is empty. -/
theorem load_no_validation_lookup_fails_witness :
    (loadGame (fun _ _ => "w") 1 1 [] 0 0 [] "@" "I").isSome = true ∧
    isPassable exC7b 0 0 = none :=
  ⟨(load_no_validation_lookup_fails (fun _ _ => "w") 1 1 [] 0 0 [] "@" "I").1,
   (load_no_validation_lookup_fails (fun _ _ => "w") 1 1 [] 0 0 [] "@" "I").2
     exC7b rfl 0 0 rfl⟩

/-- C1 counterexample: on a thirty-wide all-grass map with the player one
cell from the right edge, the game.ts viewport start is nineteen while
the clamp formula of the specification gives ten, so the renderer does
not compute the claimed clamp. -/
theorem viewportGame_start_not_clamped :
    (viewportGame (mkGrassState 30 30 29 6 []) viewportWidth
        viewportHeight).startX ≠
      clampSpec ((mkGrassState 30 30 29 6 []).playerX -
        Int.fdiv viewportWidth 2) 0
        ((mkGrassState 30 30 29 6 []).mapWidth - viewportWidth) := by
  decide

/-- C1 amended: the game.ts renderer (also part_003 and part_004) clamps
the viewport start below by zero only, computing the maximum of zero and
the player coordinate minus half the viewport size, with no upper bound;
the part_002 iteration computes the full clamp of the specification, on
both axes. -/
theorem viewport_corner_characterisation :
    ∀ (st : GameState) (w h : Int),
      (viewportGame st w h).startX = max 0 (st.playerX - Int.fdiv w 2) ∧
      (viewportGame st w h).startY = max 0 (st.playerY - Int.fdiv h 2) ∧
      (viewportP2 st w h).startX =
        clampSpec (st.playerX - Int.fdiv w 2) 0 (st.mapWidth - w) ∧
      (viewportP2 st w h).startY =
        clampSpec (st.playerY - Int.fdiv h 2) 0 (st.mapHeight - h) := by
  intro st w h
  rw [Int.fdiv_eq_ediv w (by decide), Int.fdiv_eq_ediv h (by decide)]
  refine ⟨rfl, rfl, ?_, ?_⟩
  · simp only [viewportP2, clampSpec]
    rw [max_comm]
  · simp only [viewportP2, clampSpec]
    rw [max_comm]

/-- Size of the drawMap output for arbitrary corners that lie inside the
map, under the coverage hypothesis that every in-bounds grid label is
truthy and has a table entry with a truthy visual: one row per y index
and one cell per x index. -/
theorem drawMapWith_size {st : GameState} {v : Viewport}
    (hx1 : 0 ≤ v.startX) (hx2 : v.endX ≤ st.mapWidth)
    (hy1 : 0 ≤ v.startY) (hy2 : v.endY ≤ st.mapHeight)
    (hcov : ∀ x y : Int, 0 ≤ x → x < st.mapWidth → 0 ≤ y →
      y < st.mapHeight → st.terrain y x ≠ "" ∧
      ∃ tt, lookupTable (st.terrain y x) st.table = some tt ∧
        tt.visual ≠ "") :
    (drawMapWith st v).length = (v.endY - v.startY).toNat ∧
    ∀ row ∈ drawMapWith st v, row.length = (v.endX - v.startX).toNat := by
  constructor
  · simp [drawMapWith, length_intRange]
  · intro row hrow
    simp only [drawMapWith, List.mem_map] at hrow
    obtain ⟨y, hy, rfl⟩ := hrow
    have hyb := mem_intRange hy
    rw [flatMap_length_of_singletons _ _ ?_, length_intRange]
    intro x hx
    have hxb := mem_intRange hx
    obtain ⟨hlab, hent⟩ :=
      hcov x y (by omega) (by omega) (by omega) (by omega)
    exact renderCell_length_one hlab hent

/-- C2 counterexample: on a thirty-by-thirty all-grass map with the
player in the bottom-right corner, the game.ts drawMap produces seven
rows, not the twelve rows that the minimum of the viewport height and the
map height demands. -/
theorem drawMapGame_corner_too_few_rows :
    (drawMapGame (mkGrassState 30 30 29 29 []) viewportWidth
        viewportHeight).length ≠
      (min viewportHeight (mkGrassState 30 30 29 29 []).mapHeight).toNat := by
  decide

/-- C2 amended: the clamped renderer of part_002 does satisfy the claimed
dimensions whenever the map is at least as large as the viewport on each
axis and every grid label is covered by the table with a truthy visual:
for every in-bounds player position the output has exactly the minimum of
the viewport height and map height rows, each with exactly the minimum of
the viewport width and map width cells; the unclamped game.ts renderer
produces fewer near the bottom and right edges. -/
theorem drawMapP2_viewport_size :
    ∀ (st : GameState) (w h : Int),
      0 ≤ w → w ≤ st.mapWidth → 0 ≤ h → h ≤ st.mapHeight →
      0 ≤ st.playerX → st.playerX < st.mapWidth →
      0 ≤ st.playerY → st.playerY < st.mapHeight →
      (∀ x y : Int, 0 ≤ x → x < st.mapWidth → 0 ≤ y → y < st.mapHeight →
        st.terrain y x ≠ "" ∧
        ∃ tt, lookupTable (st.terrain y x) st.table = some tt ∧
          tt.visual ≠ "") →
      (drawMapP2 st w h).length = (min h st.mapHeight).toNat ∧
      ∀ row ∈ drawMapP2 st w h,
        row.length = (min w st.mapWidth).toNat := by
  intro st w h hw hwm hh hhm hx1 hx2 hy1 hy2 hcov
  have fx1 : 0 ≤ (viewportP2 st w h).startX := by
    simp only [viewportP2]
    exact le_min (le_max_left 0 _) (by omega)
  have fy1 : 0 ≤ (viewportP2 st w h).startY := by
    simp only [viewportP2]
    exact le_min (le_max_left 0 _) (by omega)
  have ex : (viewportP2 st w h).endX = (viewportP2 st w h).startX + w := by
    simp only [viewportP2]
    refine min_eq_right ?_
    have := min_le_right (max 0 (st.playerX - w / 2)) (st.mapWidth - w)
    omega
  have ey : (viewportP2 st w h).endY = (viewportP2 st w h).startY + h := by
    simp only [viewportP2]
    refine min_eq_right ?_
    have := min_le_right (max 0 (st.playerY - h / 2)) (st.mapHeight - h)
    omega
  have hex : (viewportP2 st w h).endX ≤ st.mapWidth := by
    simp only [viewportP2]
    exact min_le_left _ _
  have hey : (viewportP2 st w h).endY ≤ st.mapHeight := by
    simp only [viewportP2]
    exact min_le_left _ _
  obtain ⟨hrows, hcells⟩ :=
    @drawMapWith_size st (viewportP2 st w h) fx1 hex fy1 hey hcov
  constructor
  · show (drawMapWith st (viewportP2 st w h)).length = _
    rw [hrows, ey, min_eq_left hhm]
    omega
  · intro row hrow
    have := hcells row hrow
    rw [this, ex, min_eq_left hwm]
    omega

/-- C2 witness: the thirty-by-thirty all-grass map with the player in the
bottom-right corner, where the clamped renderer still yields twelve
rows. -/
theorem drawMapP2_viewport_size_witness :
    (drawMapP2 (mkGrassState 30 30 29 29 []) 20 12).length =
      (min (12 : Int) (mkGrassState 30 30 29 29 []).mapHeight).toNat :=
  (drawMapP2_viewport_size (mkGrassState 30 30 29 29 []) 20 12
    (by decide) (by decide) (by decide) (by decide) (by decide) (by decide)
    (by decide) (by decide)
    (fun x y _ _ _ _ =>
      ⟨by simp [mkGrassState],
       ⟨{ visual := "\x7bgreen-fg\x7dg\x7b/green-fg\x7d",
          description := "\x7bgreen-fg\x7dgrass\x7b/green-fg\x7d",
          isPassable := true }, rfl, by decide⟩⟩)).1

end Nodelike
